import Mathlib

/-!
Verification of the Compify identity and session subsystem.

This file gives a shallow embedding, in Lean 4, of the Go source of the
subsystem (package `models`, package `repository` with its in-memory
stores, and package `auth` with the service orchestrator), and proves or
refutes the behavioural properties stated for it.

Modelling conventions:
* Go `string` is modelled as `List Char` (`Str`), so that string
  operations (trimming, lower-casing, splitting) are plain structural
  recursion amenable to proof.
* Go `time.Time` is modelled as an abstract tick count `Nat`; the current
  time is passed explicitly to every operation that calls `time.Now()`.
* Go `[]byte` is modelled as `List (Fin 256)`.
* Go maps are modelled as association lists with deterministic iteration
  order; `map[k] = v` is `insertA`, `delete(map, k)` is `eraseA`.
* The external `golang.org/x/crypto/argon2` key-derivation function is not
  part of this repository; it is abstracted as a parameter of type `KDF`
  (password, salt, time cost, memory cost, thread count, key length →
  derived key).
* Fallible Go functions returning `(T, error)` become `Except AppErr T`;
  each distinct Go sentinel error value is a distinct `AppErr` constructor.
* `crypto/rand` draws (salts, tokens, generated ids) are passed in as
  explicit oracle arguments.
-/

namespace Compify

/-- Go `string`, modelled as a list of characters. -/
abbrev Str := List Char

/-- Go `[]byte` element. -/
abbrev Byte := Fin 256

instance {e a : Type} [DecidableEq e] [DecidableEq a] : DecidableEq (Except e a) := fun x y =>
  match x, y with
  | .ok v, .ok w =>
    if h : v = w then .isTrue (congrArg Except.ok h)
    else .isFalse (fun hh => h (Except.ok.inj hh))
  | .ok _, .error _ => .isFalse (fun hh => Except.noConfusion hh)
  | .error _, .ok _ => .isFalse (fun hh => Except.noConfusion hh)
  | .error v, .error w =>
    if h : v = w then .isTrue (congrArg Except.error h)
    else .isFalse (fun hh => h (Except.error.inj hh))

/-- Per-character lower-casing, modelling `strings.ToLower` (the emails and
usernames accepted by the validators are ASCII, where the two agree). -/
def toLowerStr (l : Str) : Str := l.map Char.toLower

/-- Whitespace trimming at both ends, modelling `strings.TrimSpace`. -/
def trimStr (l : Str) : Str :=
  ((l.dropWhile Char.isWhitespace).reverse.dropWhile Char.isWhitespace).reverse

/-- Splitting on a single separator character, modelling
`strings.Split(s, sep)` for a one-character separator. -/
def splitOnChar (sep : Char) : Str → List Str
  | [] => [[]]
  | c :: cs =>
    if c = sep then [] :: splitOnChar sep cs
    else
      match splitOnChar sep cs with
      | [] => [[c]]
      | h :: t => (c :: h) :: t

/-- Lookup in an association list, modelling Go map indexing. -/
def lookupA {α : Type} (k : Str) : List (Str × α) → Option α
  | [] => none
  | (k', v) :: rest => if k' = k then some v else lookupA k rest

/-- Insertion (or replacement) in an association list, modelling Go map
assignment. -/
def insertA {α : Type} (k : Str) (v : α) : List (Str × α) → List (Str × α)
  | [] => [(k, v)]
  | (k', v') :: rest => if k' = k then (k, v) :: rest else (k', v') :: insertA k v rest

/-- Deletion from an association list, modelling Go `delete(map, k)`. -/
def eraseA {α : Type} (k : Str) (l : List (Str × α)) : List (Str × α) :=
  l.filter (fun p => decide (p.1 ≠ k))

/-! ## Base64 (`encoding/base64` `RawStdEncoding`)

The standard alphabet without padding, as used by `hashPassword` and
`verifyPassword`. Decoding is modelled on Go's default (non-strict)
decoder: it fails on characters outside the alphabet and on encodings of
length ≡ 1 (mod 4), and ignores surplus trailing bits. Go's skipping of
carriage-return and newline bytes inside the input is not modelled; it
matters only for digests the canonical hasher never emits. -/

/-- Standard base64 alphabet. -/
def b64Alphabet : Str :=
  "ABCDEFGHIJKLMNOPQRSTUVWXYZabcdefghijklmnopqrstuvwxyz0123456789+/".toList

/-- Character for a 6-bit group. -/
def b64Char (n : Nat) : Char := b64Alphabet.getD n '?'

/-- Index of a character in the base64 alphabet, if any. -/
def b64Index (c : Char) : Option (Fin 64) :=
  let i := b64Alphabet.indexOf c
  if h : i < 64 then some ⟨i, h⟩ else none

/-- Base64 encoding without padding (`RawStdEncoding.EncodeToString`). -/
def rawStdEncode : List Byte → Str
  | [] => []
  | [x] => [b64Char (x.val / 4), b64Char (x.val % 4 * 16)]
  | [x, y] =>
    [b64Char (x.val / 4), b64Char (x.val % 4 * 16 + y.val / 16), b64Char (y.val % 16 * 4)]
  | x :: y :: z :: rest =>
    b64Char (x.val / 4) :: b64Char (x.val % 4 * 16 + y.val / 16) ::
      b64Char (y.val % 16 * 4 + z.val / 64) :: b64Char (z.val % 64) :: rawStdEncode rest

/-- First output byte of a decoded group. -/
def b64Byte0 (a b : Fin 64) : Byte :=
  ⟨a.val * 4 + b.val / 16, by have := a.isLt; have := b.isLt; omega⟩

/-- Second output byte of a decoded group. -/
def b64Byte1 (b c : Fin 64) : Byte :=
  ⟨b.val % 16 * 16 + c.val / 4, by have := b.isLt; have := c.isLt; omega⟩

/-- Third output byte of a decoded group. -/
def b64Byte2 (c d : Fin 64) : Byte :=
  ⟨c.val % 4 * 64 + d.val, by have := c.isLt; have := d.isLt; omega⟩

/-- Base64 decoding without padding (`RawStdEncoding.DecodeString`):
`none` models the `CorruptInputError` failure. -/
def rawStdDecode : Str → Option (List Byte)
  | [] => some []
  | [_] => none
  | [c0, c1] =>
    match b64Index c0, b64Index c1 with
    | some a, some b => some [b64Byte0 a b]
    | _, _ => none
  | [c0, c1, c2] =>
    match b64Index c0, b64Index c1, b64Index c2 with
    | some a, some b, some c => some [b64Byte0 a b, b64Byte1 b c]
    | _, _, _ => none
  | c0 :: c1 :: c2 :: c3 :: rest =>
    match b64Index c0, b64Index c1, b64Index c2, b64Index c3, rawStdDecode rest with
    | some a, some b, some c, some d, some r =>
      some (b64Byte0 a b :: b64Byte1 b c :: b64Byte2 c d :: r)
    | _, _, _, _, _ => none

/-! ## Data model (`internal/models`) -/

/-- Error values of the subsystem. Each constructor models one distinct Go
sentinel error (`errors.New` value) observable from the embedded code. -/
inductive AppErr where
  | emailRequired
  | usernameRequired
  | passwordRequired
  | invalidEmail
  | invalidUsername
  | emailTooLong
  | usernameTooLong
  | bioTooLong
  | nameTooLong
  | emailExists
  | usernameExists
  | userNotFound
  | profileNotFound
  | passwordTooShort
  | passwordsDoNotMatch
  | invalidCredentials
  | userAlreadyExists
  | invalidToken
  | sessionExpired
  | sessionNotFound
  | invalidUserID
  deriving DecidableEq

/-- Profile record (`models.Profile`). -/
structure Profile where
  userID : Str
  firstName : Str
  lastName : Str
  bio : Str
  avatarURL : Str
  deriving DecidableEq

/-- User record (`models.User`). -/
structure User where
  id : Str
  email : Str
  username : Str
  passwordHash : Str
  createdAt : Nat
  updatedAt : Nat
  profile : Profile
  deriving DecidableEq

/-- Session record (`models.Session`). -/
structure Session where
  id : Str
  userID : Str
  token : Str
  expiresAt : Nat
  createdAt : Nat
  ipAddress : Str
  userAgent : Str
  deriving DecidableEq

/-- Character class of the local part of `emailRegex`
(`[a-zA-Z0-9._%+-]`). -/
def emailLocalChar (c : Char) : Bool :=
  c.isAlphanum || c = '.' || c = '_' || c = '%' || c = '+' || c = '-'

/-- Character class of the domain part of `emailRegex` (`[a-zA-Z0-9.-]`). -/
def emailDomainChar (c : Char) : Bool :=
  c.isAlphanum || c = '.' || c = '-'

/-- Matcher for the domain of `emailRegex`, i.e. `[a-zA-Z0-9.-]+\.[a-zA-Z]{2,}`
anchored on both sides. Since the top-level-domain segment of a match is
all-alphabetic (dot-free), a string matches iff splitting at its last dot
yields a non-empty domain-class part and an alphabetic part of length at
least 2. -/
def matchEmailDomain (d : Str) : Bool :=
  let tldRev := d.reverse.takeWhile (fun c => decide (c ≠ '.'))
  let restRev := d.reverse.dropWhile (fun c => decide (c ≠ '.'))
  match restRev with
  | [] => false
  | _ :: preRev =>
    decide (preRev ≠ []) && preRev.all emailDomainChar &&
      decide (tldRev.length ≥ 2) && tldRev.all Char.isAlpha

/-- Matcher for `emailRegex = ^[a-zA-Z0-9._%+-]+@[a-zA-Z0-9.-]+\.[a-zA-Z]{2,}$`.
No character class of the pattern contains `@`, so a string matches iff
splitting at its first `@` yields a non-empty local-class part and a
matching domain. -/
def matchEmail (l : Str) : Bool :=
  let localPart := l.takeWhile (fun c => decide (c ≠ '@'))
  let rest := l.dropWhile (fun c => decide (c ≠ '@'))
  match rest with
  | [] => false
  | _ :: domain =>
    decide (localPart ≠ []) && localPart.all emailLocalChar && matchEmailDomain domain

/-- Matcher for `usernameRegex = ^[a-zA-Z0-9_-]{3,30}$`. -/
def matchUsername (l : Str) : Bool :=
  decide (3 ≤ l.length) && decide (l.length ≤ 30) &&
    l.all (fun c => c.isAlphanum || c = '_' || c = '-')

/-- Validation of a user record (`User.Validate`). -/
def User.validate (u : User) : Except AppErr Unit :=
  if u.email = [] then .error .emailRequired
  else if u.email.length > 255 then .error .emailTooLong
  else if ¬ matchEmail u.email then .error .invalidEmail
  else if u.username = [] then .error .usernameRequired
  else if u.username.length > 30 then .error .usernameTooLong
  else if ¬ matchUsername u.username then .error .invalidUsername
  else .ok ()

/-- Sanitization of a user record (`User.Sanitize`): lower-case and trim the
email, trim the username. -/
def User.sanitize (u : User) : User :=
  { u with email := trimStr (toLowerStr u.email), username := trimStr u.username }

/-- Validation of a profile record (`Profile.Validate`). -/
def Profile.validate (p : Profile) : Except AppErr Unit :=
  if p.firstName.length > 100 then .error .nameTooLong
  else if p.lastName.length > 100 then .error .nameTooLong
  else if p.bio.length > 1000 then .error .bioTooLong
  else .ok ()

/-- Sanitization of a profile record (`Profile.Sanitize`). -/
def Profile.sanitize (p : Profile) : Profile :=
  { p with
    firstName := trimStr p.firstName
    lastName := trimStr p.lastName
    bio := trimStr p.bio
    avatarURL := trimStr p.avatarURL }

/-- Default session duration (`DefaultSessionDuration`, 7 days), in the
abstract time unit. -/
def defaultSessionDuration : Nat := 7 * 24 * 60 * 60

/-- Expiry check (`Session.IsExpired`): `time.Now().After(s.ExpiresAt)` is
the strict comparison `expiresAt < now`. -/
def Session.isExpired (s : Session) (now : Nat) : Bool :=
  decide (s.expiresAt < now)

/-- Validity check (`Session.IsValid`). -/
def Session.isValid (s : Session) (now : Nat) : Bool :=
  !s.isExpired now && decide (s.token ≠ [])

/-- Extension (`Session.Extend`): resets expires-at to `now + duration`. -/
def Session.extend (s : Session) (now duration : Nat) : Session :=
  { s with expiresAt := now + duration }

/-- Validation of a session record (`Session.Validate`). -/
def Session.validate (s : Session) (now : Nat) : Except AppErr Unit :=
  if s.userID = [] then .error .invalidUserID
  else if s.token = [] then .error .invalidToken
  else if s.isExpired now then .error .sessionExpired
  else .ok ()

/-- Session construction (`models.NewSession`); the random token draw is the
`token` oracle argument. -/
def Session.new (userID ipAddress userAgent : Str) (token : Str) (now : Nat) :
    Except AppErr Session :=
  if userID = [] then .error .invalidUserID
  else
    .ok
      { id := []
        userID := userID
        token := token
        expiresAt := now + defaultSessionDuration
        createdAt := now
        ipAddress := ipAddress
        userAgent := userAgent }

/-! ## Credential Store (`repository.MemoryUserRepository`) -/

/-- State of the in-memory user repository: the `users` map keyed by id and
the `profiles` map keyed by user id. -/
structure UserStore where
  users : List (Str × User)
  profiles : List (Str × Profile)
  deriving DecidableEq

/-- Empty user repository (`NewMemoryUserRepository`). -/
def UserStore.empty : UserStore := { users := [], profiles := [] }

/-- Profile loading performed by the getters: `user.Profile = *profile` when
a profile exists for the user's id. -/
def UserStore.loadProfile (st : UserStore) (u : User) : User :=
  match lookupA u.id st.profiles with
  | some p => { u with profile := p }
  | none => u

/-- Creation (`MemoryUserRepository.Create`): validate, sanitize, scan for a
duplicate email or username, assign the generated id and timestamps, store
the user, and store (and embed) a fresh empty profile. -/
def UserStore.create (now : Nat) (genID : Str) (user : User) (st : UserStore) :
    Except AppErr User × UserStore :=
  match user.validate with
  | .error e => (.error e, st)
  | .ok _ =>
    let user := user.sanitize
    match st.users.find? (fun p => decide (p.2.email = user.email ∨ p.2.username = user.username)) with
    | some p =>
      if p.2.email = user.email then (.error .emailExists, st)
      else (.error .usernameExists, st)
    | none =>
      let uid := if user.id = [] then genID else user.id
      let prof : Profile :=
        { userID := uid, firstName := [], lastName := [], bio := [], avatarURL := [] }
      let user :=
        { user with id := uid, createdAt := now, updatedAt := now, profile := prof }
      (.ok user,
        { users := insertA uid user st.users, profiles := insertA uid prof st.profiles })

/-- Lookup by id (`MemoryUserRepository.GetByID`). -/
def UserStore.getByID (st : UserStore) (id : Str) : Except AppErr User :=
  match lookupA id st.users with
  | none => .error .userNotFound
  | some u => .ok (st.loadProfile u)

/-- Lookup by email (`MemoryUserRepository.GetByEmail`): a linear scan
comparing the stored (sanitized) email against the raw query, byte for
byte. -/
def UserStore.getByEmail (st : UserStore) (email : Str) : Except AppErr User :=
  match st.users.find? (fun p => decide (p.2.email = email)) with
  | none => .error .userNotFound
  | some p => .ok (st.loadProfile p.2)

/-- Lookup by username (`MemoryUserRepository.GetByUsername`). -/
def UserStore.getByUsername (st : UserStore) (username : Str) : Except AppErr User :=
  match st.users.find? (fun p => decide (p.2.username = username)) with
  | none => .error .userNotFound
  | some p => .ok (st.loadProfile p.2)

/-- Update (`MemoryUserRepository.Update`): validate, sanitize, require the
id to exist, refresh the timestamp and store. Note the absence of any
duplicate scan. -/
def UserStore.update (now : Nat) (user : User) (st : UserStore) :
    Except AppErr Unit × UserStore :=
  match user.validate with
  | .error e => (.error e, st)
  | .ok _ =>
    let user := user.sanitize
    match lookupA user.id st.users with
    | none => (.error .userNotFound, st)
    | some _ =>
      (.ok (), { st with users := insertA user.id { user with updatedAt := now } st.users })

/-- Deletion (`MemoryUserRepository.Delete`). -/
def UserStore.delete (id : Str) (st : UserStore) : Except AppErr Unit × UserStore :=
  match lookupA id st.users with
  | none => (.error .userNotFound, st)
  | some _ =>
    (.ok (), { users := eraseA id st.users, profiles := eraseA id st.profiles })

/-- Profile update (`MemoryUserRepository.UpdateProfile`). -/
def UserStore.updateProfile (profile : Profile) (st : UserStore) :
    Except AppErr Unit × UserStore :=
  match profile.validate with
  | .error e => (.error e, st)
  | .ok _ =>
    let profile := profile.sanitize
    match lookupA profile.userID st.users with
    | none => (.error .userNotFound, st)
    | some _ => (.ok (), { st with profiles := insertA profile.userID profile st.profiles })

/-- Profile read (`MemoryUserRepository.GetProfile`). -/
def UserStore.getProfile (st : UserStore) (userID : Str) : Except AppErr Profile :=
  match lookupA userID st.profiles with
  | none => .error .profileNotFound
  | some p => .ok p

/-! ## Session Registry (`repository.MemorySessionRepository`) -/

/-- State of the in-memory session repository: the `sessions` map keyed by
token. -/
abbrev SessionStore := List (Str × Session)

/-- Session creation (`MemorySessionRepository.Create`): validate, assign
the generated id if absent, and store under the token (overwriting on an
exact token match). -/
def SessionStore.create (now : Nat) (genID : Str) (s : Session) (st : SessionStore) :
    Except AppErr Session × SessionStore :=
  match s.validate now with
  | .error e => (.error e, st)
  | .ok _ =>
    let s := if s.id = [] then { s with id := genID } else s
    (.ok s, insertA s.token s st)

/-- Token lookup (`MemorySessionRepository.GetByToken`): expiry is evaluated
at call time; an expired record yields `sessionExpired` without being
removed. -/
def SessionStore.getByToken (now : Nat) (token : Str) (st : SessionStore) :
    Except AppErr Session :=
  match lookupA token st with
  | none => .error .sessionNotFound
  | some s => if s.isExpired now then .error .sessionExpired else .ok s

/-- Session update (`MemorySessionRepository.Update`): validate, require the
token to exist, store. -/
def SessionStore.update (now : Nat) (s : Session) (st : SessionStore) :
    Except AppErr Unit × SessionStore :=
  match s.validate now with
  | .error e => (.error e, st)
  | .ok _ =>
    match lookupA s.token st with
    | none => (.error .sessionNotFound, st)
    | some _ => (.ok (), insertA s.token s st)

/-- Deletion by token (`MemorySessionRepository.DeleteByToken`): an absent
token is reported as `sessionNotFound`. -/
def SessionStore.deleteByToken (token : Str) (st : SessionStore) :
    Except AppErr Unit × SessionStore :=
  match lookupA token st with
  | none => (.error .sessionNotFound, st)
  | some _ => (.ok (), eraseA token st)

/-! ## Password Hasher (`auth.Service.hashPassword` / `verifyPassword`) -/

/-- Abstract Argon2id key-derivation function
(`argon2.IDKey(password, salt, time, memory, threads, keyLen)`). The
library is external to the repository; an arbitrary `KDF` stands for it. -/
abbrev KDF := Str → List Byte → Nat → Nat → Nat → Nat → List Byte

/-- Salt length constant (`saltLength`). -/
def saltLength : Nat := 16

/-- Key length constant (`keyLength`). -/
def keyLength : Nat := 32

/-- Time cost constant (`time`). -/
def timeCost : Nat := 1

/-- Memory cost constant (`memory`). -/
def memoryCost : Nat := 64 * 1024

/-- Parallelism constant (`threads`). -/
def threadsCount : Nat := 4

/-- Literal `m=` of the digest parameter section. -/
def litM : Str := "m=".toList

/-- Literal `,t=` of the digest parameter section. -/
def litT : Str := ",t=".toList

/-- Literal `,p=` of the digest parameter section. -/
def litP : Str := ",p=".toList

/-- Algorithm tag of the digest format. -/
def tagAlgorithm : Str := "argon2id".toList

/-- Version tag of the digest format. -/
def tagVersion : Str := "v=19".toList

/-- Parameter section of a produced digest:
`fmt.Sprintf("m=%d,t=%d,p=%d", memory, time, threads)`. -/
def paramsChars : Str :=
  litM ++ Nat.toDigits 10 memoryCost ++ litT ++ Nat.toDigits 10 timeCost ++
    litP ++ Nat.toDigits 10 threadsCount

/-- Numeric value of a digit string. -/
def digitsVal (l : Str) : Nat :=
  l.foldl (fun acc c => acc * 10 + (c.toNat - 48)) 0

/-- Reads a decimal number (`%d` into a `uint32`): at least one leading
digit, value below `2^32`, trailing input left over. The leading-whitespace
skipping that `fmt`'s `%d` verb performs is not modelled; it matters only
for digests the canonical hasher never emits. -/
def parseNat (l : Str) : Option (Nat × Str) :=
  let digits := l.takeWhile Char.isDigit
  let rest := l.dropWhile Char.isDigit
  if digits = [] then none
  else if digitsVal digits ≥ 2 ^ 32 then none
  else some (digitsVal digits, rest)

/-- Drops an expected literal from the front of the input. -/
def dropLit : Str → Str → Option Str
  | [], l => some l
  | _ :: _, [] => none
  | p :: ps, c :: cs => if c = p then dropLit ps cs else none

/-- Parameter parsing
(`fmt.Sscanf(parts[3], "m=%d,t=%d,p=%d", &m, &t, &p)`). -/
def parseParams (l : Str) : Option (Nat × Nat × Nat) := do
  let r1 ← dropLit litM l
  let (m, r2) ← parseNat r1
  let r3 ← dropLit litT r2
  let (t, r4) ← parseNat r3
  let r5 ← dropLit litP r4
  let (p, _) ← parseNat r5
  some (m, t, p)

/-- Constant-time digest comparison (`subtle.ConstantTimeCompare`): `1`
exactly when the two byte strings have equal length and contents. -/
def ctCompare (a b : List Byte) : Nat :=
  if a = b then 1 else 0

/-- Password hashing (`Service.hashPassword`); the random salt draw is the
`salt` oracle argument. Produces
`$argon2id$v=19$m=65536,t=1,p=4$<salt>$<key>`. -/
def hashPassword (idKey : KDF) (password : Str) (salt : List Byte) : Str :=
  let hash := idKey password salt timeCost memoryCost threadsCount keyLength
  let saltB64 := rawStdEncode salt
  let hashB64 := rawStdEncode hash
  '$' :: (tagAlgorithm ++ '$' :: (tagVersion ++ '$' ::
    (paramsChars ++ '$' :: (saltB64 ++ '$' :: hashB64))))

/-- Password verification (`Service.verifyPassword`): parse the digest,
re-derive the key with the parsed parameters (the thread count passing
through a `uint8` conversion) and salt, and compare in constant time. Every
parse failure yields `false`. The parsed parameters reach the
key-derivation function unvalidated; the real `argon2.IDKey` panics when
the time cost is below 1 or the thread count is 0, a failure mode the
total `KDF` abstraction cannot exhibit. -/
def verifyPassword (idKey : KDF) (password : Str) (hash : Str) : Bool :=
  match splitOnChar '$' hash with
  | [_, p1, p2, p3, p4, p5] =>
    if p1 ≠ tagAlgorithm ∨ p2 ≠ tagVersion then false
    else
      match parseParams p3 with
      | none => false
      | some (m, t, p) =>
        match rawStdDecode p4 with
        | none => false
        | some salt =>
          match rawStdDecode p5 with
          | none => false
          | some expectedHash =>
            let actualHash := idKey password salt t m (p % 256) expectedHash.length
            ctCompare expectedHash actualHash == 1
  | _ => false

/-- Digests rejected during parsing by `verifyPassword`: wrong number of
`$`-separated parts, wrong algorithm or version tag, unparseable cost
parameters, or invalid base64 in the salt or key section. -/
def malformedDigest (d : Str) : Bool :=
  match splitOnChar '$' d with
  | [_, p1, p2, p3, p4, p5] =>
    decide (p1 ≠ tagAlgorithm) || decide (p2 ≠ tagVersion) ||
      (parseParams p3).isNone || (rawStdDecode p4).isNone || (rawStdDecode p5).isNone
  | _ => true

/-! ## Auth Orchestrator (`auth.Service`) -/

/-- Combined repository state (`repository.Repositories`). -/
structure Repositories where
  users : UserStore
  sessions : SessionStore
  deriving DecidableEq

/-- Registration request (`auth.RegistrationRequest`). -/
structure RegistrationRequest where
  email : Str
  username : Str
  password : Str
  confirmPassword : Str
  firstName : Str
  lastName : Str
  deriving DecidableEq

/-- Login request (`auth.LoginRequest`). -/
structure LoginRequest where
  email : Str
  password : Str
  deriving DecidableEq

/-- Discriminates success from failure of an `Except` result. -/
def isOkE {ε α : Type} : Except ε α → Bool
  | .ok _ => true
  | .error _ => false

/-- Request validation (`Service.validateRegistrationRequest`). -/
def validateRegistrationRequest (req : RegistrationRequest) : Except AppErr Unit :=
  if req.email = [] then .error .emailRequired
  else if req.username = [] then .error .usernameRequired
  else if req.password = [] then .error .passwordRequired
  else if req.password.length < 8 then .error .passwordTooShort
  else if req.password ≠ req.confirmPassword then .error .passwordsDoNotMatch
  else .ok ()

/-- Request validation (`Service.validateLoginRequest`). -/
def validateLoginRequest (req : LoginRequest) : Except AppErr Unit :=
  if req.email = [] then .error .emailRequired
  else if req.password = [] then .error .passwordRequired
  else .ok ()

/-- Registration (`Service.Register`): validate the request, reject an
existing email or username, hash the password, create the user, rewrite the
(now empty) embedded profile, and create a session. The `salt`, `genUID`,
`genSID` and `token` arguments are the oracle draws consumed by the
corresponding random generators. -/
def register (idKey : KDF) (req : RegistrationRequest) (salt : List Byte) (now : Nat)
    (genUID genSID token ipAddress userAgent : Str) (st : Repositories) :
    Except AppErr (User × Session) × Repositories :=
  match validateRegistrationRequest req with
  | .error e => (.error e, st)
  | .ok _ =>
    match UserStore.getByEmail st.users req.email with
    | .ok _ => (.error .userAlreadyExists, st)
    | .error _ =>
      match UserStore.getByUsername st.users req.username with
      | .ok _ => (.error .userAlreadyExists, st)
      | .error _ =>
        let passwordHash := hashPassword idKey req.password salt
        let user : User :=
          { id := []
            email := req.email
            username := req.username
            passwordHash := passwordHash
            createdAt := 0
            updatedAt := 0
            profile :=
              { userID := [], firstName := req.firstName, lastName := req.lastName,
                bio := [], avatarURL := [] } }
        match UserStore.create now genUID user st.users with
        | (.error e, us') => (.error e, { st with users := us' })
        | (.ok u, us') =>
          let prof := { u.profile with userID := u.id }
          match UserStore.updateProfile prof us' with
          | (.error e, us'') => (.error e, { st with users := us'' })
          | (.ok _, us'') =>
            match Session.new u.id ipAddress userAgent token now with
            | .error e => (.error e, { st with users := us'' })
            | .ok sess =>
              match SessionStore.create now genSID sess st.sessions with
              | (.error e, ss') => (.error e, { users := us'', sessions := ss' })
              | (.ok s', ss') =>
                (.ok ({ u with profile := prof.sanitize }, s'),
                  { users := us'', sessions := ss' })

/-- Login (`Service.Login`): validate the request, look the account up by
the raw request email, verify the password, create a session. Both lookup
failure and verification failure yield the single generic
`invalidCredentials` error. -/
def login (idKey : KDF) (req : LoginRequest) (now : Nat)
    (genSID token ipAddress userAgent : Str) (st : Repositories) :
    Except AppErr (User × Session) × Repositories :=
  match validateLoginRequest req with
  | .error e => (.error e, st)
  | .ok _ =>
    match UserStore.getByEmail st.users req.email with
    | .error _ => (.error .invalidCredentials, st)
    | .ok user =>
      if verifyPassword idKey req.password user.passwordHash then
        match Session.new user.id ipAddress userAgent token now with
        | .error e => (.error e, st)
        | .ok sess =>
          match SessionStore.create now genSID sess st.sessions with
          | (.error e, ss') => (.error e, { st with sessions := ss' })
          | (.ok s', ss') => (.ok (user, s'), { st with sessions := ss' })
      else (.error .invalidCredentials, st)

/-- Logout (`Service.Logout`): the empty token short-circuits to success;
otherwise the deletion result of the registry is returned as is. -/
def logout (sessionToken : Str) (st : SessionStore) :
    Except AppErr Unit × SessionStore :=
  if sessionToken = [] then (.ok (), st)
  else SessionStore.deleteByToken sessionToken st

/-- One observable storage access performed while resolving a session. -/
inductive AccessEvent where
  | sessionRead (token : Str)
  | userRead (id : Str)
  deriving DecidableEq

/-- Session resolution (`Service.GetUserFromSession`): the empty token is
rejected before any storage access; otherwise the session is fetched by
token and its owning user by id. The second component records every store
access performed, in order. -/
def resolveSession (sessionToken : Str) (now : Nat) (st : Repositories) :
    Except AppErr User × List AccessEvent :=
  if sessionToken = [] then (.error .sessionNotFound, [])
  else
    match SessionStore.getByToken now sessionToken st.sessions with
    | .error e => (.error e, [.sessionRead sessionToken])
    | .ok sess =>
      match UserStore.getByID st.users sess.userID with
      | .error e => (.error e, [.sessionRead sessionToken, .userRead sess.userID])
      | .ok u => (.ok u, [.sessionRead sessionToken, .userRead sess.userID])

/-- Profile stored for a freshly created account (names wiped by
`Create`, which overwrites the embedded profile with an empty one). -/
def regProfile (uid : Str) : Profile :=
  { userID := uid, firstName := [], lastName := [], bio := [], avatarURL := [] }

/-- Account record stored by a successful registration from the empty
store: sanitized email and username, the produced digest, the generated
id. -/
def regUser (idKey : KDF) (req : RegistrationRequest) (salt : List Byte) (now : Nat)
    (uid : Str) : User :=
  { id := uid, email := trimStr (toLowerStr req.email),
    username := trimStr req.username,
    passwordHash := hashPassword idKey req.password salt,
    createdAt := now, updatedAt := now, profile := regProfile uid }

/-- Session record stored by a successful registration. -/
def regSession (uid sid token ip ua : Str) (now : Nat) : Session :=
  { id := sid, userID := uid, token := token,
    expiresAt := now + defaultSessionDuration, createdAt := now,
    ipAddress := ip, userAgent := ua }

/-! ## Concrete instances used by counterexamples and witnesses -/

/-- Concrete key-derivation function used to instantiate the abstract `KDF`
in closed evaluations: a key of the requested length whose bytes depend on
the password. -/
def kdfSample : KDF := fun pw _ _ _ _ klen =>
  if pw = ['a'] then List.replicate klen 0 else List.replicate klen 1

/-- Empty profile value. -/
def emptyProfile : Profile :=
  { userID := [], firstName := [], lastName := [], bio := [], avatarURL := [] }

/-- Concrete token used to probe `logout` with an absent session. -/
def c1Token : Str := "tok".toList

/-- First account of the uniqueness scenario. -/
def c2UserA : User :=
  { id := [], email := "a@x.com".toList, username := "alice".toList,
    passwordHash := ['h'], createdAt := 0, updatedAt := 0, profile := emptyProfile }

/-- Second account of the uniqueness scenario. -/
def c2UserB : User :=
  { id := [], email := "b@x.com".toList, username := "bobby".toList,
    passwordHash := ['h'], createdAt := 0, updatedAt := 0, profile := emptyProfile }

/-- Generated id of the first account. -/
def c2IdA : Str := "ida".toList

/-- Generated id of the second account. -/
def c2IdB : Str := "idb".toList

/-- Store after creating the first account. -/
def c2Store1 : UserStore := (UserStore.create 0 c2IdA c2UserA UserStore.empty).2

/-- Store after creating both accounts. -/
def c2Store2 : UserStore := (UserStore.create 0 c2IdB c2UserB c2Store1).2

/-- Update payload that changes the second account's email to the first
account's email. -/
def c2UserB2 : User := { c2UserB with id := c2IdB, email := "a@x.com".toList }

/-- Store after the update. -/
def c2Store3 : UserStore := (UserStore.update 1 c2UserB2 c2Store2).2

/-- Session that expires at time 10. -/
def c3Session : Session :=
  { id := "s1".toList, userID := "u1".toList, token := "t1".toList,
    expiresAt := 10, createdAt := 0, ipAddress := [], userAgent := [] }

/-- Registry holding that session. -/
def c3Store : SessionStore := [(c3Session.token, c3Session)]

/-- The session after an extension at time 20 by 5 ticks. -/
def c3Extended : Session := c3Session.extend 20 5

/-- Registry after updating with the extended session at time 20. -/
def c3Store2 : SessionStore := (SessionStore.update 20 c3Extended c3Store).2

/-- Session whose expires-at equals the observation instant. -/
def c4Session : Session :=
  { id := "s4".toList, userID := "u4".toList, token := "t4".toList,
    expiresAt := 5, createdAt := 0, ipAddress := [], userAgent := [] }

/-- Registry holding that session. -/
def c4Store : SessionStore := [(c4Session.token, c4Session)]

/-- Concrete salt. -/
def c5Salt : List Byte := List.replicate saltLength 3

/-- Well-formed digest carrying time cost 0: it passes every parse check of
`verifyPassword`, whose unvalidated parameters then make the real
`argon2.IDKey` panic (`argon2: number of rounds too small`). -/
def c6PanicDigest : Str := "$argon2id$v=19$m=65536,t=0,p=4$AAAA$AAAA".toList

/-- Well-formed digest carrying parallelism 256: `uint8(256)` wraps to 0
threads, on which the real `argon2.IDKey` panics
(`argon2: parallelism degree too low`). -/
def c6PanicDigest2 : Str := "$argon2id$v=19$m=65536,t=1,p=256$AAAA$AAAA".toList

/-- Concrete login request against an empty store. -/
def c7Request : LoginRequest :=
  { email := "a@x.com".toList, password := "pw123456".toList }

/-- Registration request whose email carries an upper-case letter. -/
def c10Request : RegistrationRequest :=
  { email := "Bob@x.com".toList, username := "bobby".toList,
    password := "password123".toList, confirmPassword := "password123".toList,
    firstName := [], lastName := [] }

/-- Concrete salt for the registration. -/
def c10Salt : List Byte := List.replicate saltLength 2

/-- Generated user id. -/
def c10Uid : Str := "uid1".toList

/-- Generated session id. -/
def c10Sid : Str := "sid1".toList

/-- Session token issued at registration. -/
def c10Tok : Str := "tok1".toList

/-- Session token issued at the later logins. -/
def c10Tok2 : Str := "tok2".toList

/-! ## Lemmas and claim theorems -/

theorem lookupA_insertA_self {α : Type} (k : Str) (v : α) (l : List (Str × α)) :
    lookupA k (insertA k v l) = some v := by
  induction l with
  | nil => simp [insertA, lookupA]
  | cons p rest ih =>
    by_cases h : p.1 = k
    · simp [insertA, h, lookupA]
    · simp [insertA, h, lookupA, ih]

theorem lookupA_insertA_other {α : Type} (k k' : Str) (v : α) (l : List (Str × α))
    (h : k' ≠ k) : lookupA k' (insertA k v l) = lookupA k' l := by
  have hk : k ≠ k' := Ne.symm h
  induction l with
  | nil => simp [insertA, lookupA, hk]
  | cons p rest ih =>
    obtain ⟨pk, pv⟩ := p
    by_cases hp : pk = k
    · subst hp
      simp [insertA, lookupA, hk]
    · simp [insertA, hp, lookupA, ih]

theorem lookupA_eraseA_self {α : Type} (k : Str) (l : List (Str × α)) :
    lookupA k (eraseA k l) = none := by
  induction l with
  | nil => simp [eraseA, lookupA]
  | cons p rest ih =>
    by_cases h : p.1 = k
    · simpa [eraseA, List.filter, h] using ih
    · simpa [eraseA, List.filter, h, lookupA] using ih

theorem b64Index_b64Char (n : Nat) (h : n < 64) : b64Index (b64Char n) = some ⟨n, h⟩ := by
  have : ∀ v : Fin 64, b64Index (b64Char v.val) = some v := by decide
  exact this ⟨n, h⟩

theorem b64Char_ne_dollar (n : Nat) (h : n < 64) : b64Char n ≠ '$' := by
  have : ∀ v : Fin 64, b64Char v.val ≠ '$' := by decide
  exact this ⟨n, h⟩

theorem rawStdDecode_encode : ∀ l : List Byte, rawStdDecode (rawStdEncode l) = some l
  | [] => rfl
  | [x] => by
    have hx := x.isLt
    simp only [rawStdEncode, rawStdDecode,
      b64Index_b64Char (x.val / 4) (by omega),
      b64Index_b64Char (x.val % 4 * 16) (by omega)]
    simp only [b64Byte0, Option.some.injEq, List.cons.injEq, and_true, Fin.ext_iff]
    omega
  | [x, y] => by
    have hx := x.isLt; have hy := y.isLt
    simp only [rawStdEncode, rawStdDecode,
      b64Index_b64Char (x.val / 4) (by omega),
      b64Index_b64Char (x.val % 4 * 16 + y.val / 16) (by omega),
      b64Index_b64Char (y.val % 16 * 4) (by omega)]
    simp only [b64Byte0, b64Byte1, Option.some.injEq, List.cons.injEq, and_true, Fin.ext_iff]
    omega
  | x :: y :: z :: rest => by
    have hx := x.isLt; have hy := y.isLt; have hz := z.isLt
    have ih := rawStdDecode_encode rest
    simp only [rawStdEncode, rawStdDecode,
      b64Index_b64Char (x.val / 4) (by omega),
      b64Index_b64Char (x.val % 4 * 16 + y.val / 16) (by omega),
      b64Index_b64Char (y.val % 16 * 4 + z.val / 64) (by omega),
      b64Index_b64Char (z.val % 64) (by omega), ih]
    simp only [b64Byte0, b64Byte1, b64Byte2, Option.some.injEq, List.cons.injEq, and_true,
      Fin.ext_iff]
    omega

theorem rawStdEncode_ne_dollar : ∀ (l : List Byte), ∀ c ∈ rawStdEncode l, c ≠ '$'
  | [] => by simp [rawStdEncode]
  | [x] => by
    have hx := x.isLt
    simp only [rawStdEncode, List.mem_cons, List.mem_singleton, List.not_mem_nil, or_false]
    rintro c (rfl | rfl)
    · exact b64Char_ne_dollar _ (by omega)
    · exact b64Char_ne_dollar _ (by omega)
  | [x, y] => by
    have hx := x.isLt; have hy := y.isLt
    simp only [rawStdEncode, List.mem_cons, List.not_mem_nil, or_false]
    rintro c (rfl | rfl | rfl)
    · exact b64Char_ne_dollar _ (by omega)
    · exact b64Char_ne_dollar _ (by omega)
    · exact b64Char_ne_dollar _ (by omega)
  | x :: y :: z :: rest => by
    have hx := x.isLt; have hy := y.isLt; have hz := z.isLt
    have ih := rawStdEncode_ne_dollar rest
    simp only [rawStdEncode, List.mem_cons]
    rintro c (rfl | rfl | rfl | rfl | hc)
    · exact b64Char_ne_dollar _ (by omega)
    · exact b64Char_ne_dollar _ (by omega)
    · exact b64Char_ne_dollar _ (by omega)
    · exact b64Char_ne_dollar _ (by omega)
    · exact ih c hc

theorem ws_char_cases (c : Char) (h : c.isWhitespace = true) :
    c = ' ' ∨ c = '\t' ∨ c = '\r' ∨ c = '\n' := by
  simpa [Char.isWhitespace, or_assoc] using h

theorem toLower_not_ws (c : Char) (h : c.isWhitespace = false) :
    (Char.toLower c).isWhitespace = false := by
  by_cases hc : c.toNat ≥ 65 ∧ c.toNat ≤ 90
  · have hlow : Char.toLower c = Char.ofNat (c.toNat + 32) := by
      simp [Char.toLower, hc]
    rw [hlow]
    obtain ⟨h1, h2⟩ := hc
    generalize c.toNat = n at h1 h2
    interval_cases n <;> decide
  · have hlow : Char.toLower c = c := by
      simp [Char.toLower, hc]
    rw [hlow]
    exact h

theorem emailLocalChar_not_ws (c : Char) (h : emailLocalChar c = true) :
    c.isWhitespace = false := by
  cases hw : c.isWhitespace with
  | false => rfl
  | true =>
    rcases ws_char_cases c hw with rfl | rfl | rfl | rfl <;> exact absurd h (by decide)

theorem emailDomainChar_not_ws (c : Char) (h : emailDomainChar c = true) :
    c.isWhitespace = false := by
  cases hw : c.isWhitespace with
  | false => rfl
  | true =>
    rcases ws_char_cases c hw with rfl | rfl | rfl | rfl <;> exact absurd h (by decide)

theorem isAlpha_not_ws (c : Char) (h : c.isAlpha = true) : c.isWhitespace = false := by
  cases hw : c.isWhitespace with
  | false => rfl
  | true =>
    rcases ws_char_cases c hw with rfl | rfl | rfl | rfl <;> exact absurd h (by decide)

theorem dropWhile_head_not {α : Type} (p : α → Bool) :
    ∀ (l : List α) (x : α) (xs : List α), l.dropWhile p = x :: xs → p x = false := by
  intro l
  induction l with
  | nil => intro x xs h; simp [List.dropWhile] at h
  | cons a as ih =>
    intro x xs h
    simp only [List.dropWhile] at h
    cases hp : p a with
    | true => rw [hp] at h; exact ih x xs h
    | false =>
      rw [hp] at h
      injection h with hx hxs
      subst hx
      exact hp

theorem dropWhile_all_not {α : Type} (p : α → Bool) (l : List α)
    (h : ∀ c ∈ l, p c = false) : l.dropWhile p = l := by
  cases l with
  | nil => rfl
  | cons a as => simp [List.dropWhile, h a (List.mem_cons_self a as)]

theorem trimStr_eq_self (l : Str) (h : ∀ c ∈ l, c.isWhitespace = false) :
    trimStr l = l := by
  unfold trimStr
  rw [dropWhile_all_not _ _ h]
  rw [dropWhile_all_not]
  · exact List.reverse_reverse l
  · intro c hc
    exact h c (List.mem_reverse.mp hc)

theorem matchEmailDomain_not_ws (d : Str) (h : matchEmailDomain d = true) :
    ∀ c ∈ d, c.isWhitespace = false := by
  simp only [matchEmailDomain] at h
  cases hr : List.dropWhile (fun c => decide (c ≠ '.')) d.reverse with
  | nil => rw [hr] at h; simp at h
  | cons b preRev =>
    rw [hr] at h
    simp only [Bool.and_eq_true, decide_eq_true_eq, List.all_eq_true] at h
    obtain ⟨⟨⟨_, hpreB⟩, _⟩, htld⟩ := h
    have hb : b = '.' := by
      have := dropWhile_head_not _ _ _ _ hr
      simpa using this
    intro c hc
    have hsplit : d.reverse = List.takeWhile (fun c => decide (c ≠ '.')) d.reverse ++ (b :: preRev) := by
      rw [← hr]
      exact (List.takeWhile_append_dropWhile _ _).symm
    have hc' : c ∈ d.reverse := List.mem_reverse.mpr hc
    rw [hsplit] at hc'
    rcases List.mem_append.mp hc' with h1 | h2
    · exact isAlpha_not_ws c (htld c h1)
    · rcases List.mem_cons.mp h2 with rfl | h3
      · subst hb; decide
      · exact emailDomainChar_not_ws c (hpreB c h3)

theorem matchEmail_not_ws (l : Str) (h : matchEmail l = true) :
    ∀ c ∈ l, c.isWhitespace = false := by
  simp only [matchEmail] at h
  cases hr : List.dropWhile (fun c => decide (c ≠ '@')) l with
  | nil => rw [hr] at h; simp at h
  | cons a dom =>
    rw [hr] at h
    simp only [Bool.and_eq_true, decide_eq_true_eq, List.all_eq_true] at h
    obtain ⟨⟨_, hlocA⟩, hdom⟩ := h
    have ha : a = '@' := by
      have := dropWhile_head_not _ _ _ _ hr
      simpa using this
    intro c hc
    have hsplit : l = List.takeWhile (fun c => decide (c ≠ '@')) l ++ (a :: dom) := by
      rw [← hr]
      exact (List.takeWhile_append_dropWhile _ _).symm
    rw [hsplit] at hc
    rcases List.mem_append.mp hc with h1 | h2
    · exact emailLocalChar_not_ws c (hlocA c h1)
    · rcases List.mem_cons.mp h2 with rfl | h3
      · subst ha; decide
      · exact matchEmailDomain_not_ws dom hdom c h3

theorem trim_toLower_of_matchEmail (l : Str) (h : matchEmail l = true) :
    trimStr (toLowerStr l) = toLowerStr l := by
  apply trimStr_eq_self
  intro c hc
  simp only [toLowerStr, List.mem_map] at hc
  obtain ⟨c0, hc0, rfl⟩ := hc
  exact toLower_not_ws c0 (matchEmail_not_ws l h c0 hc0)

theorem splitOnChar_sep_cons (sep : Char) (l : Str) :
    splitOnChar sep (sep :: l) = [] :: splitOnChar sep l := by
  simp [splitOnChar]

theorem splitOnChar_no_sep (sep : Char) (l : Str) (h : ∀ c ∈ l, c ≠ sep) :
    splitOnChar sep l = [l] := by
  induction l with
  | nil => rfl
  | cons c cs ih =>
    have hc : c ≠ sep := h c (by simp)
    have ih' := ih (fun x hx => h x (by simp [hx]))
    simp only [splitOnChar, if_neg hc, ih']

theorem splitOnChar_append_sep (sep : Char) (l1 l2 : Str) (h : ∀ c ∈ l1, c ≠ sep) :
    splitOnChar sep (l1 ++ sep :: l2) = l1 :: splitOnChar sep l2 := by
  induction l1 with
  | nil => simpa using splitOnChar_sep_cons sep l2
  | cons c cs ih =>
    have hc : c ≠ sep := h c (by simp)
    have ih' := ih (fun x hx => h x (by simp [hx]))
    simp only [List.cons_append, splitOnChar, if_neg hc, List.append_eq, ih']

theorem splitOnChar_hashPassword (idKey : KDF) (pw : Str) (salt : List Byte) :
    splitOnChar '$' (hashPassword idKey pw salt) =
      [[], tagAlgorithm, tagVersion, paramsChars, rawStdEncode salt,
        rawStdEncode (idKey pw salt timeCost memoryCost threadsCount keyLength)] := by
  simp only [hashPassword]
  rw [splitOnChar_sep_cons]
  rw [splitOnChar_append_sep '$' tagAlgorithm _ (by decide)]
  rw [splitOnChar_append_sep '$' tagVersion _ (by decide)]
  rw [splitOnChar_append_sep '$' paramsChars _ (by decide)]
  rw [splitOnChar_append_sep '$' (rawStdEncode salt) _ (rawStdEncode_ne_dollar salt)]
  rw [splitOnChar_no_sep '$' _ (rawStdEncode_ne_dollar _)]

theorem parseParams_paramsChars :
    parseParams paramsChars = some (memoryCost, timeCost, threadsCount) := by
  decide

theorem verifyPassword_hashPassword (idKey : KDF) (p1 p2 : Str) (salt : List Byte)
    (hlen : (idKey p1 salt timeCost memoryCost threadsCount keyLength).length = keyLength) :
    verifyPassword idKey p2 (hashPassword idKey p1 salt) =
      decide (idKey p1 salt timeCost memoryCost threadsCount keyLength =
        idKey p2 salt timeCost memoryCost threadsCount keyLength) := by
  have h4 : threadsCount % 256 = threadsCount := by decide
  simp only [verifyPassword, splitOnChar_hashPassword, parseParams_paramsChars,
    rawStdDecode_encode, hlen, h4, ctCompare]
  by_cases hc : idKey p1 salt timeCost memoryCost threadsCount keyLength =
      idKey p2 salt timeCost memoryCost threadsCount keyLength
  · simp [hc]
  · simp [hc]

theorem getByToken_none (now : Nat) (tok : Str) (st : SessionStore)
    (hlk : lookupA tok st = none) :
    SessionStore.getByToken now tok st = .error .sessionNotFound := by
  unfold SessionStore.getByToken
  rw [hlk]

theorem getByToken_some (now : Nat) (tok : Str) (st : SessionStore) (s : Session)
    (hlk : lookupA tok st = some s) :
    SessionStore.getByToken now tok st =
      if s.isExpired now = true then .error .sessionExpired else .ok s := by
  unfold SessionStore.getByToken
  rw [hlk]

/-- C1: the claim states that `logout(t)` always succeeds and that deleting
an absent token from the Session Registry is not an error. Evaluating the
code at the failing input refutes this: with a non-empty token absent from
the registry, `DeleteByToken` returns `sessionNotFound` and `Logout`
propagates it; only the empty-token case short-circuits to success. -/
theorem c1_logout_absent_token_errors :
    logout c1Token [] = (.error .sessionNotFound, []) ∧
      SessionStore.deleteByToken c1Token [] = (.error .sessionNotFound, []) ∧
      logout [] [] = (.ok (), []) := by
  decide

/-- C2: the claim states that every sequence of Credential Store operations
preserves email and username uniqueness. Evaluating the code on a three-step
sequence refutes it: two accounts are created with distinct emails, then
`Update` (which performs no duplicate scan) successfully changes the second
account's email to the first one's, leaving two stored accounts with the
same email. -/
theorem c2_update_breaks_email_uniqueness :
    isOkE (UserStore.create 0 c2IdA c2UserA UserStore.empty).1 = true ∧
      isOkE (UserStore.create 0 c2IdB c2UserB c2Store1).1 = true ∧
      (UserStore.update 1 c2UserB2 c2Store2).1 = .ok () ∧
      (lookupA c2IdA c2Store3.users).map User.email = some ("a@x.com".toList) ∧
      (lookupA c2IdB c2Store3.users).map User.email = some ("a@x.com".toList) ∧
      c2IdA ≠ c2IdB := by
  decide

/-- C3 counterexample: the claim states that an expired session can never
again be read back as valid. The trace below refutes it: at time 20 the
session (expires-at 10) reads back as expired, yet `Extend` (to 20 + 5)
followed by `Update` succeeds, after which `getByToken` at the same time 20
returns the session as valid. -/
theorem c3_expired_session_revived :
    SessionStore.getByToken 20 c3Session.token c3Store = .error .sessionExpired ∧
      (SessionStore.update 20 c3Extended c3Store).1 = .ok () ∧
      SessionStore.getByToken 20 c3Session.token c3Store2 = .ok c3Extended := by
  decide

/-- C3 (amended): session validity is monotonic in time as long as the
stored record is unchanged — once `getByToken` reports a token expired, it
keeps reporting it expired at every later instant; but it is not monotonic
across registry writes: `Extend` followed by `Update` succeeds on a stored
session and makes `getByToken` return it as valid again. -/
theorem c3_validity_monotonic_amended :
    (∀ (st : SessionStore) (tok : Str) (now now' : Nat), now ≤ now' →
        SessionStore.getByToken now tok st = .error .sessionExpired →
        SessionStore.getByToken now' tok st = .error .sessionExpired) ∧
      (∀ (st : SessionStore) (s : Session) (now d : Nat),
        lookupA s.token st = some s → s.userID ≠ [] → s.token ≠ [] →
        SessionStore.update now (s.extend now d) st =
            (.ok (), insertA s.token (s.extend now d) st) ∧
          SessionStore.getByToken now s.token (insertA s.token (s.extend now d) st) =
            .ok (s.extend now d)) := by
  constructor
  · intro st tok now now' hle hexp
    cases hl : lookupA tok st with
    | none =>
      rw [getByToken_none now tok st hl] at hexp
      simp at hexp
    | some s =>
      rw [getByToken_some now tok st s hl] at hexp
      rw [getByToken_some now' tok st s hl]
      by_cases he : s.isExpired now = true
      · have he' : s.isExpired now' = true := by
          simp only [Session.isExpired, decide_eq_true_eq] at he ⊢
          omega
        rw [if_pos he']
      · rw [if_neg he] at hexp
        simp at hexp
  · intro st s now d hlk hu ht
    have hval : (s.extend now d).validate now = .ok () := by
      simp [Session.validate, Session.extend, hu, ht, Session.isExpired]
    have hexp : (s.extend now d).isExpired now = false := by
      simp [Session.isExpired, Session.extend]
    have htok : (s.extend now d).token = s.token := rfl
    constructor
    · simp [SessionStore.update, hval, htok, hlk]
    · simp [SessionStore.getByToken, lookupA_insertA_self, hexp]

/-- C3 witness: both parts of the amended statement instantiated on the
concrete expired session. -/
theorem c3_validity_monotonic_amended_witness :
    ((20 : Nat) ≤ 21 ∧
        SessionStore.getByToken 20 c3Session.token c3Store = .error .sessionExpired ∧
        SessionStore.getByToken 21 c3Session.token c3Store = .error .sessionExpired) ∧
      (lookupA c3Session.token c3Store = some c3Session ∧
        c3Session.userID ≠ [] ∧ c3Session.token ≠ [] ∧
        SessionStore.update 20 (c3Session.extend 20 5) c3Store =
            (.ok (), insertA c3Session.token (c3Session.extend 20 5) c3Store) ∧
          SessionStore.getByToken 20 c3Session.token
              (insertA c3Session.token (c3Session.extend 20 5) c3Store) =
            .ok (c3Session.extend 20 5)) := by
  refine ⟨⟨by decide, by decide,
    c3_validity_monotonic_amended.1 c3Store c3Session.token 20 21 (by decide) (by decide)⟩, ?_⟩
  have h := c3_validity_monotonic_amended.2 c3Store c3Session 20 5 (by decide) (by decide)
    (by decide)
  exact ⟨by decide, by decide, by decide, h.1, h.2⟩

/-- C4 counterexample: the claim states a session is valid iff the current
time is strictly below expires-at. At the boundary instant `now = expiresAt`
the code still returns the session as valid (`time.Now().After` is strict),
refuting the claimed strict inequality. -/
theorem c4_expiry_boundary_counterexample :
    SessionStore.getByToken 5 c4Session.token c4Store = .ok c4Session ∧
      ¬ (5 < c4Session.expiresAt) := by
  decide

/-- C4 (amended): for a session record stored under a token, `getByToken`
returns it (valid) iff the current time has not passed expires-at
(`now ≤ expiresAt`), and returns `sessionExpired` when the time has passed
it — while the record remains stored (reads never modify the registry: the
lookup functions return no state). -/
theorem c4_valid_iff_not_past_expiry (st : SessionStore) (tok : Str) (s : Session)
    (now : Nat) (hlk : lookupA tok st = some s) :
    (SessionStore.getByToken now tok st = .ok s ↔ now ≤ s.expiresAt) ∧
      (s.expiresAt < now → SessionStore.getByToken now tok st = .error .sessionExpired) := by
  rw [getByToken_some now tok st s hlk]
  constructor
  · by_cases he : s.isExpired now = true
    · rw [if_pos he]
      have hlt : s.expiresAt < now := by simpa [Session.isExpired] using he
      constructor
      · intro h; simp at h
      · intro h; omega
    · rw [if_neg he]
      have hge : ¬ s.expiresAt < now := by simpa [Session.isExpired] using he
      simp
      omega
  · intro hlt
    have he : s.isExpired now = true := by
      simp only [Session.isExpired, decide_eq_true_eq]
      omega
    rw [if_pos he]

/-- C4 witness: the amended statement instantiated at the boundary session
(`now = expiresAt = 5`). -/
theorem c4_valid_iff_not_past_expiry_witness :
    lookupA c4Session.token c4Store = some c4Session ∧
      ((SessionStore.getByToken 5 c4Session.token c4Store = .ok c4Session ↔
          5 ≤ c4Session.expiresAt) ∧
        (c4Session.expiresAt < 5 →
          SessionStore.getByToken 5 c4Session.token c4Store = .error .sessionExpired)) :=
  ⟨by decide, c4_valid_iff_not_past_expiry c4Store c4Session.token c4Session 5 (by decide)⟩

/-- C5: for every password `p`, `verify(p, hash(p))` is true for any salt
drawn at hash time; and for distinct passwords `p1 ≠ p2`,
`verify(p2, hash(p1))` is false. The external Argon2id function is
abstracted as `idKey`; its fixed output length and its freedom from a
collision between the two passwords on this salt — the idealization under
which the claim reads — are explicit hypotheses. -/
theorem c5_verify_hash_roundtrip (idKey : KDF) (p1 p2 : Str) (salt : List Byte)
    (hlen : (idKey p1 salt timeCost memoryCost threadsCount keyLength).length = keyLength)
    (hne : p1 ≠ p2)
    (hinj : idKey p2 salt timeCost memoryCost threadsCount keyLength =
        idKey p1 salt timeCost memoryCost threadsCount keyLength → p2 = p1) :
    verifyPassword idKey p1 (hashPassword idKey p1 salt) = true ∧
      verifyPassword idKey p2 (hashPassword idKey p1 salt) = false := by
  constructor
  · rw [verifyPassword_hashPassword idKey p1 p1 salt hlen]
    simp
  · rw [verifyPassword_hashPassword idKey p1 p2 salt hlen]
    simp only [decide_eq_false_iff_not]
    intro hcoll
    exact hne ((hinj hcoll.symm).symm)

/-- C5 witness: the round trip evaluated on the sample key-derivation
function with two concrete distinct passwords. -/
theorem c5_verify_hash_roundtrip_witness :
    (kdfSample ['a'] c5Salt timeCost memoryCost threadsCount keyLength).length = keyLength ∧
      ['a'] ≠ ['b'] ∧
      verifyPassword kdfSample ['a'] (hashPassword kdfSample ['a'] c5Salt) = true ∧
      verifyPassword kdfSample ['b'] (hashPassword kdfSample ['a'] c5Salt) = false := by
  have h := c5_verify_hash_roundtrip kdfSample ['a'] ['b'] c5Salt (by decide) (by decide)
    (by decide)
  exact ⟨by decide, by decide, h.1, h.2⟩

/-- C6: the claim states that `verify` fails closed on malformed digests
and never panics, being total over all string inputs. The fail-closed half
matches the parsing code, but totality is false of the program: the cost
parameters parsed out of the digest are passed to the external
`argon2.IDKey` without validation, and that library panics when the time
cost is below 1 or the thread count (after the `uint8` conversion) is 0.
This theorem evaluates the code at the failing inputs: both digests pass
every parse check (`malformedDigest` is `false`), and `verifyPassword`
invokes the key-derivation function with time cost 0 (first digest),
respectively thread count `256 % 256 = 0` (second digest) — the very
arguments on which `argon2.IDKey` panics, a failure the total-KDF
embedding cannot itself exhibit. -/
theorem c6_unvalidated_params_reach_kdf (idKey : KDF) (password : Str) :
    (malformedDigest c6PanicDigest = false ∧
        verifyPassword idKey password c6PanicDigest =
          (ctCompare (List.replicate 3 0)
              (idKey password (List.replicate 3 0) 0 65536 4 3) == 1)) ∧
      (malformedDigest c6PanicDigest2 = false ∧
        verifyPassword idKey password c6PanicDigest2 =
          (ctCompare (List.replicate 3 0)
              (idKey password (List.replicate 3 0) 1 65536 0 3) == 1)) :=
  ⟨⟨by decide, rfl⟩, ⟨by decide, rfl⟩⟩

/-- C7: any login request with non-empty email and non-empty password that
fails — because no account carries that email, or because the password does
not verify against the stored digest (the hypothesis covers both cases) —
returns the one generic `invalidCredentials` error, revealing nothing about
whether the email was registered. -/
theorem c7_login_generic_invalid_credentials (idKey : KDF) (req : LoginRequest)
    (now : Nat) (genSID token ipAddress userAgent : Str) (st : Repositories)
    (hemail : req.email ≠ []) (hpwd : req.password ≠ [])
    (hfail : ∀ u, UserStore.getByEmail st.users req.email = .ok u →
      verifyPassword idKey req.password u.passwordHash = false) :
    (login idKey req now genSID token ipAddress userAgent st).1 =
      .error .invalidCredentials := by
  have hv : validateLoginRequest req = .ok () := by
    simp [validateLoginRequest, hemail, hpwd]
  simp only [login, hv]
  cases hu : UserStore.getByEmail st.users req.email with
  | error e => rfl
  | ok u =>
    have hverify := hfail u hu
    simp [hverify]

/-- C7 witness: login against the empty store (unknown email) with non-empty
fields yields `invalidCredentials`. -/
theorem c7_login_generic_invalid_credentials_witness :
    c7Request.email ≠ [] ∧ c7Request.password ≠ [] ∧
      (login kdfSample c7Request 0 [] [] [] []
          { users := UserStore.empty, sessions := [] }).1 = .error .invalidCredentials :=
  ⟨by decide, by decide,
    c7_login_generic_invalid_credentials kdfSample c7Request 0 [] [] [] []
      { users := UserStore.empty, sessions := [] } (by decide) (by decide)
      (fun _ hu => nomatch hu)⟩

/-- C8: for every state of both stores and every token — live, expired,
absent or empty — running `logout` on the token and then `resolveSession`
on the same token yields `sessionNotFound`. -/
theorem c8_logout_then_resolve_not_found (users : UserStore) (sessions : SessionStore)
    (token : Str) (now : Nat) :
    (resolveSession token now
        { users := users, sessions := (logout token sessions).2 }).1 =
      .error .sessionNotFound := by
  by_cases h : token = []
  · subst h
    rfl
  · have hlk : lookupA token (logout token sessions).2 = none := by
      unfold logout SessionStore.deleteByToken
      rw [if_neg h]
      cases hl : lookupA token sessions with
      | none => exact hl
      | some s => exact lookupA_eraseA_self token sessions
    unfold resolveSession
    rw [if_neg h, getByToken_none now token _ hlk]

/-- C9: resolving the empty token yields `sessionNotFound` immediately: the
access log is empty, so neither the Session Registry nor the Credential
Store is read (and, the resolver being read-only by type, neither store is
written). -/
theorem c9_resolve_empty_token_no_storage_access (users : UserStore)
    (sessions : SessionStore) (now : Nat) :
    resolveSession [] now { users := users, sessions := sessions } =
      (.error .sessionNotFound, []) := rfl

theorem validate_ok_facts (u : User) (h : u.validate = .ok ()) :
    u.email ≠ [] ∧ matchEmail u.email = true ∧
      u.username ≠ [] ∧ matchUsername u.username = true := by
  unfold User.validate at h
  split_ifs at h with h1 h2 h3 h4 h5 h6 <;> try simp at h
  exact ⟨h1, h3, h4, h6⟩

theorem validateReg_ok_facts (req : RegistrationRequest)
    (h : validateRegistrationRequest req = .ok ()) :
    req.email ≠ [] ∧ req.username ≠ [] ∧ req.password ≠ [] := by
  unfold validateRegistrationRequest at h
  split_ifs at h with h1 h2 h3 h4 h5 <;> try simp at h
  exact ⟨h1, h2, h3⟩

/-- Characterization of a successful registration from the empty stores:
the request validated, the email matched the address shape, the generated
id and token are non-empty, and the final state holds exactly the one
sanitized account, its profile, and the one session. -/
theorem register_empty_ok (idKey : KDF) (req : RegistrationRequest) (salt : List Byte)
    (now : Nat) (genUID genSID token ip ua : Str)
    (hok : isOkE (register idKey req salt now genUID genSID token ip ua
        { users := UserStore.empty, sessions := [] }).1 = true) :
    validateRegistrationRequest req = .ok () ∧
      matchEmail req.email = true ∧
      genUID ≠ [] ∧ token ≠ [] ∧
      (register idKey req salt now genUID genSID token ip ua
          { users := UserStore.empty, sessions := [] }).2 =
        { users :=
            { users := [(genUID, regUser idKey req salt now genUID)],
              profiles := [(genUID, regProfile genUID)] },
          sessions := [(token, regSession genUID genSID token ip ua now)] } := by
  have hval : validateRegistrationRequest req = .ok () := by
    cases hv : validateRegistrationRequest req with
    | ok u => cases u; rfl
    | error e => simp [register, hv, isOkE] at hok
  have hv3 : User.validate
      { id := [], email := req.email, username := req.username,
        passwordHash := hashPassword idKey req.password salt, createdAt := 0,
        updatedAt := 0,
        profile := { userID := [], firstName := req.firstName,
                     lastName := req.lastName, bio := [], avatarURL := [] } } = .ok () := by
    cases hv : User.validate
        { id := [], email := req.email, username := req.username,
          passwordHash := hashPassword idKey req.password salt, createdAt := 0,
          updatedAt := 0,
          profile := { userID := [], firstName := req.firstName,
                       lastName := req.lastName, bio := [], avatarURL := [] } } with
    | ok u => cases u; rfl
    | error e =>
      simp [register, hval, UserStore.getByEmail, UserStore.getByUsername, UserStore.empty,
        UserStore.create, hv, isOkE] at hok
  have hnexp : ¬ (now + defaultSessionDuration < now) := by omega
  have htrimnil : trimStr ([] : Str) = [] := rfl
  have huid : genUID ≠ [] := by
    intro hc
    subst hc
    simp [register, hval, UserStore.getByEmail, UserStore.getByUsername, UserStore.empty,
      UserStore.create, hv3, User.sanitize, UserStore.updateProfile, Profile.validate,
      Profile.sanitize, insertA, lookupA, Session.new, isOkE] at hok
  have htok : token ≠ [] := by
    intro hc
    subst hc
    simp [register, hval, UserStore.getByEmail, UserStore.getByUsername, UserStore.empty,
      UserStore.create, hv3, User.sanitize, UserStore.updateProfile, Profile.validate,
      Profile.sanitize, insertA, lookupA, Session.new, huid, SessionStore.create,
      Session.validate, isOkE] at hok
  refine ⟨hval, (validate_ok_facts _ hv3).2.1, huid, htok, ?_⟩
  simp [register, hval, UserStore.getByEmail, UserStore.getByUsername, UserStore.empty,
    UserStore.create, hv3, User.sanitize, UserStore.updateProfile, Profile.validate,
    Profile.sanitize, insertA, lookupA, Session.new, huid, SessionStore.create,
    Session.validate, Session.isExpired, htok, hnexp, htrimnil, regUser, regProfile,
    regSession]

/-- C10: account creation stores the email lower-cased (and trimmed), but
`getByEmail` compares the raw query byte for byte; hence after a successful
registration from the empty store with an email containing an upper-case
letter, logging in with exactly the registration email yields
`invalidCredentials`, while logging in with its lower-cased form succeeds.
The abstract key-derivation function is assumed to produce keys of the
configured length, and the later login's token oracle to be non-empty. -/
theorem c10_login_email_case_sensitivity (idKey : KDF) (req : RegistrationRequest)
    (salt : List Byte) (now : Nat) (genUID genSID token ip ua : Str)
    (now' : Nat) (genSID' token' ip' ua' : Str)
    (hreg : isOkE (register idKey req salt now genUID genSID token ip ua
        { users := UserStore.empty, sessions := [] }).1 = true)
    (hupper : toLowerStr req.email ≠ req.email)
    (hlen : (idKey req.password salt timeCost memoryCost threadsCount keyLength).length =
      keyLength)
    (htok2 : token' ≠ []) :
    (login idKey { email := req.email, password := req.password } now' genSID' token'
        ip' ua'
        (register idKey req salt now genUID genSID token ip ua
          { users := UserStore.empty, sessions := [] }).2).1 = .error .invalidCredentials ∧
      isOkE (login idKey { email := toLowerStr req.email, password := req.password } now'
          genSID' token' ip' ua'
          (register idKey req salt now genUID genSID token ip ua
            { users := UserStore.empty, sessions := [] }).2).1 = true := by
  obtain ⟨hval, hm, huid, htok, hstate⟩ :=
    register_empty_ok idKey req salt now genUID genSID token ip ua hreg
  obtain ⟨hemail_ne, husername_ne, hpwd_ne⟩ := validateReg_ok_facts req hval
  have hstored : trimStr (toLowerStr req.email) = toLowerStr req.email :=
    trim_toLower_of_matchEmail _ hm
  rw [hstate]
  constructor
  · have hvA : validateLoginRequest { email := req.email, password := req.password } =
        .ok () := by
      simp [validateLoginRequest, hemail_ne, hpwd_ne]
    have hne : trimStr (toLowerStr req.email) ≠ req.email := by
      rw [hstored]
      exact hupper
    simp [login, hvA, UserStore.getByEmail, regUser, List.find?, hne]
  · have hemail2 : toLowerStr req.email ≠ [] := by
      simp [toLowerStr]
      exact hemail_ne
    have hvB : validateLoginRequest
        { email := toLowerStr req.email, password := req.password } = .ok () := by
      simp [validateLoginRequest, hemail2, hpwd_ne]
    have hverify : verifyPassword idKey req.password
        (hashPassword idKey req.password salt) = true := by
      rw [verifyPassword_hashPassword idKey req.password req.password salt hlen]
      simp
    have hnexp : ¬ (now' + defaultSessionDuration < now') := by omega
    simp [login, hvB, UserStore.getByEmail, regUser, List.find?, hstored,
      UserStore.loadProfile, lookupA, regProfile, hverify, Session.new, huid,
      SessionStore.create, Session.validate, htok2, Session.isExpired, isOkE, hnexp]

/-- C10 witness: the full scenario evaluated on a concrete registration with
email `Bob@x.com`; login with `Bob@x.com` fails with `invalidCredentials`,
login with `bob@x.com` succeeds. -/
theorem c10_login_email_case_sensitivity_witness :
    isOkE (register kdfSample c10Request c10Salt 0 c10Uid c10Sid c10Tok [] []
        { users := UserStore.empty, sessions := [] }).1 = true ∧
      toLowerStr c10Request.email ≠ c10Request.email ∧
      (kdfSample c10Request.password c10Salt timeCost memoryCost threadsCount
          keyLength).length = keyLength ∧
      c10Tok2 ≠ [] ∧
      ((login kdfSample { email := c10Request.email, password := c10Request.password } 1
          c10Sid c10Tok2 [] []
          (register kdfSample c10Request c10Salt 0 c10Uid c10Sid c10Tok [] []
            { users := UserStore.empty, sessions := [] }).2).1 =
          .error .invalidCredentials ∧
        isOkE (login kdfSample
            { email := toLowerStr c10Request.email, password := c10Request.password } 1
            c10Sid c10Tok2 [] []
            (register kdfSample c10Request c10Salt 0 c10Uid c10Sid c10Tok [] []
              { users := UserStore.empty, sessions := [] }).2).1 = true) :=
  ⟨by decide, by decide, by decide, by decide,
    c10_login_email_case_sensitivity kdfSample c10Request c10Salt 0 c10Uid c10Sid c10Tok
      [] [] 1 c10Sid c10Tok2 [] [] (by decide) (by decide) (by decide) (by decide)⟩

end Compify
